import Mathlib

/-!
Verification of the Cortex metrics-exporter configuration validator and
request authenticator (opentelemetry-go-contrib, exporters/metric/cortex).

The configuration validator is embedded from `config.go`.  The per-request
authenticator (`Exporter.addHeaders` with its helpers) is not part of the
excerpt, only its tests are, so it is modelled from the specification text
(each such definition carries a doc comment starting `Modelled from the
spec:`).

Go values are embedded as follows: `time.Duration` (an int64 of
nanoseconds) becomes `Int`; a Go `map[string]string` becomes an association
list wrapped in `Option` so that a nil map and an empty map stay distinct
(indexing either of them yields `""`, as in Go); the filesystem seen by a
single call is an association list from paths to contents; `*http.Client`
becomes `Option HTTPClient`.
-/

namespace Cortex

/-- One nanosecond count per second, matching Go `time.Second`. -/
def second : Int := 1000000000

/-- Go map read `m[k]`: a missing key or a nil map yields the zero value `""`. -/
def mapGet (m : Option (List (String × String))) (k : String) : String :=
  match m with
  | none => ""
  | some l => ((l.lookup k).getD "")

/-- Go map read on a non-nil map. -/
def mapGetSome (l : List (String × String)) (k : String) : String :=
  ((l.lookup k).getD "")

/-- The filesystem visible to one call: an association list from file paths
to file contents.  A path that is absent cannot be read. -/
abbrev FS := List (String × String)

/-- Model of `ioutil.ReadFile`: the contents when the path exists, `none`
(a read error) otherwise. -/
def fsRead (fs : FS) (path : String) : Option String :=
  List.lookup path fs

/-- A request header map, as a list of name/value pairs. -/
abbrev Headers := List (String × String)

/-- Model of Go `http.Header.Set`: replaces any existing values for the
name with the single new value. -/
def setHeader (h : Headers) (k v : String) : Headers :=
  (List.filter (fun p => p.1 ≠ k) h) ++ [(k, v)]

/-- Model of Go `http.Header.Get`: first value for the name, `""` if absent. -/
def getHeader (h : Headers) (k : String) : String :=
  ((List.lookup k h).getD "")

/-- Number of entries in a header map carrying the given name. -/
def countHeader (h : Headers) (k : String) : Nat :=
  (List.filter (fun p => p.1 = k) h).length

/-- The standard base64 alphabet, as in Go `encoding/base64.StdEncoding`. -/
def base64Alphabet : List Char :=
  ['A','B','C','D','E','F','G','H','I','J','K','L','M','N','O','P',
   'Q','R','S','T','U','V','W','X','Y','Z',
   'a','b','c','d','e','f','g','h','i','j','k','l','m','n','o','p',
   'q','r','s','t','u','v','w','x','y','z',
   '0','1','2','3','4','5','6','7','8','9','+','/']

/-- The base64 digit for a 6-bit value. -/
def b64Digit (n : Nat) : Char :=
  base64Alphabet.getD n 'A'

/-- Standard base64 of a byte sequence, with `=` padding, as in Go
`base64.StdEncoding.EncodeToString`. -/
def b64Chars : List Nat → List Char
  | [] => []
  | [a] => [b64Digit (a / 4), b64Digit (a % 4 * 16), '=', '=']
  | [a, b] => [b64Digit (a / 4), b64Digit (a % 4 * 16 + b / 16), b64Digit (b % 16 * 4), '=']
  | a :: b :: c :: rest =>
    b64Digit (a / 4) :: b64Digit (a % 4 * 16 + b / 16) ::
    b64Digit (b % 16 * 4 + c / 64) :: b64Digit (c % 64) :: b64Chars rest

/-- Standard base64 encoding of a byte sequence as a string. -/
def base64Encode (l : List Nat) : String :=
  String.mk (b64Chars l)

/-- UTF-8 encoding of one character, as the list of its byte values. -/
def utf8Bytes (c : Char) : List Nat :=
  let n := c.toNat
  if n < 128 then [n]
  else if n < 2048 then [192 + n / 64, 128 + n % 64]
  else if n < 65536 then [224 + n / 4096, 128 + (n / 64) % 64, 128 + n % 64]
  else [240 + n / 262144, 128 + (n / 4096) % 64, 128 + (n / 64) % 64, 128 + n % 64]

/-- The UTF-8 bytes of a string, matching Go `[]byte(s)`. -/
def strBytes (s : String) : List Nat :=
  (s.data.map utf8Bytes).flatten

/-- The errors surfaced by validation and header construction.
`ErrTwoPasswords`, `ErrTwoBearerTokens` are declared in `config.go`;
`ErrNoBasicAuthUsername`, `ErrNoBasicAuthPassword`, `ErrFailedToReadFile`
are referenced by the tests; `ErrURLParse` stands for the error value that
`url.Parse` returns for a malformed proxy URL. -/
inductive CortexError where
  | ErrTwoPasswords
  | ErrTwoBearerTokens
  | ErrNoBasicAuthUsername
  | ErrNoBasicAuthPassword
  | ErrFailedToReadFile
  | ErrURLParse
deriving DecidableEq, Repr

/-- The `http.Transport` fields that `Config.Validate` sets when it builds
the proxy transport. -/
structure Transport where
  Proxy : String
  DialTimeout : Int
  DialKeepAlive : Int
  DualStack : Bool
  ForceAttemptHTTP2 : Bool
  MaxIdleConns : Int
  IdleConnTimeout : Int
  TLSHandshakeTimeout : Int
  ExpectContinueTimeout : Int
deriving DecidableEq, Repr

/-- A `*http.Client` as far as `Config.Validate` distinguishes clients:
either `http.DefaultClient` or a client built over a custom transport. -/
inductive HTTPClient where
  | defaultClient
  | custom (transport : Transport)
deriving DecidableEq, Repr

/-- The `Config` struct of `config.go`.  Durations are nanosecond counts. -/
structure Config where
  Endpoint : String := ""
  RemoteTimeout : Int := 0
  Name : String := ""
  BasicAuth : Option (List (String × String)) := none
  BearerToken : String := ""
  BearerTokenFile : String := ""
  TLSConfig : Option (List (String × String)) := none
  ProxyURL : String := ""
  PushInterval : Int := 0
  Headers : Option (List (String × String)) := none
  Client : Option HTTPClient := none
deriving DecidableEq, Repr

/-- Model of Go `url.Parse` success: `url.Parse` rejects exactly the
strings that contain an ASCII control character, and otherwise yields a
URL value, here represented by the string itself. -/
def urlParse (s : String) : Option String :=
  if s.data.all (fun c => 32 ≤ c.toNat ∧ c.toNat ≠ 127) then some s else none

/-- The transport `Config.Validate` builds for a parsed proxy URL: the
same as `http.DefaultTransport` other than the proxy. -/
def proxyTransport (u : String) : Transport :=
  { Proxy := u
    DialTimeout := 30 * second
    DialKeepAlive := 30 * second
    DualStack := true
    ForceAttemptHTTP2 := true
    MaxIdleConns := 100
    IdleConnTimeout := 90 * second
    TLSHandshakeTimeout := 10 * second
    ExpectContinueTimeout := 1 * second }

/-- The defaulting phase of `Config.Validate`: the three `if` statements of
`config.go` that fill in missing properties, in source order. -/
def withDefaults (c : Config) : Config :=
  let c1 : Config := if c.Endpoint = "" then { c with Endpoint := "/api/prom/push" } else c
  let c2 : Config := if c1.RemoteTimeout = 0 then { c1 with RemoteTimeout := 30 * second } else c1
  if c2.PushInterval = 0 then { c2 with PushInterval := 10 * second } else c2

/-- The client-construction phase of `Config.Validate`: the two `if`
statements of `config.go` that set `c.Client` when it is nil, building a
proxy transport first when a proxy URL is configured. -/
def setClient (c : Config) : Config × Option CortexError :=
  if c.Client = none ∧ c.ProxyURL ≠ "" then
    match urlParse c.ProxyURL with
    | none => (c, some CortexError.ErrURLParse)
    | some u =>
      ({ c with Client := some (HTTPClient.custom (proxyTransport u)) }, none)
  else if c.Client = none then
    ({ c with Client := some HTTPClient.defaultClient }, none)
  else
    (c, none)

/-- `Config.Validate` from `config.go`.  The Go method mutates its receiver
in place and returns an error; the embedding returns the receiver state at
the point of return paired with the returned error (`none` for nil).  The
mutually-exclusive-property checks come first, then the defaulting phase,
then the client-construction phase. -/
def Config.Validate (c : Config) : Config × Option CortexError :=
  if c.BearerToken ≠ "" ∧ c.BearerTokenFile ≠ "" then
    (c, some CortexError.ErrTwoBearerTokens)
  else if mapGet c.BasicAuth "password" ≠ "" ∧ mapGet c.BasicAuth "password_file" ≠ "" then
    (c, some CortexError.ErrTwoPasswords)
  else
    setClient (withDefaults c)

/-- Decidable equality for `Except` results, so that concrete facts about
authenticator outcomes can be settled by evaluation. -/
instance instDecEqExcept {ε α : Type} [DecidableEq ε] [DecidableEq α] :
    DecidableEq (Except ε α) := fun a b =>
  match a, b with
  | Except.ok x, Except.ok y =>
    match decEq x y with
    | Decidable.isTrue h => Decidable.isTrue (by rw [h])
    | Decidable.isFalse h => Decidable.isFalse (by simp [h])
  | Except.error x, Except.error y =>
    match decEq x y with
    | Decidable.isTrue h => Decidable.isTrue (by rw [h])
    | Decidable.isFalse h => Decidable.isFalse (by simp [h])
  | Except.ok _, Except.error _ => Decidable.isFalse (by simp)
  | Except.error _, Except.ok _ => Decidable.isFalse (by simp)

/-- Modelled from the spec: the basic-auth step of the authenticator
(`Exporter.addBasicAuth`, absent from the excerpt; only its tests are
present).  Per the spec, on a configured (non-nil) basic-auth map it reads
the password either directly or from a file path, fails with a
distinguishable error if the file is unreadable, if the username is empty,
or if no password source is provided, and otherwise sets the standard
basic-auth encoding on the `Authorization` header. -/
def addBasicAuth (cfg : Config) (fs : FS) (req : Headers) : Except CortexError Headers :=
  match cfg.BasicAuth with
  | none => Except.ok req
  | some ba =>
    if mapGetSome ba "username" = "" then
      Except.error CortexError.ErrNoBasicAuthUsername
    else if mapGetSome ba "password" = "" ∧ mapGetSome ba "password_file" = "" then
      Except.error CortexError.ErrNoBasicAuthPassword
    else if mapGetSome ba "password" ≠ "" then
      Except.ok (setHeader req "Authorization"
        ("Basic " ++ base64Encode (strBytes
          (mapGetSome ba "username" ++ ":" ++ mapGetSome ba "password"))))
    else
      match fsRead fs (mapGetSome ba "password_file") with
      | none => Except.error CortexError.ErrFailedToReadFile
      | some filePassword =>
        Except.ok (setHeader req "Authorization"
          ("Basic " ++ base64Encode (strBytes
            (mapGetSome ba "username" ++ ":" ++ filePassword))))

/-- Modelled from the spec: the bearer-token step of the authenticator
(`Exporter.addBearerTokenAuth`, absent from the excerpt; only its tests
are present).  Per the spec, it reads the token directly or from a file,
fails on unreadable files, and sets a `Bearer <token>` header; with no
token configured it leaves the request alone. -/
def addBearerTokenAuth (cfg : Config) (fs : FS) (req : Headers) : Except CortexError Headers :=
  if cfg.BearerToken ≠ "" then
    Except.ok (setHeader req "Authorization" ("Bearer " ++ cfg.BearerToken))
  else if cfg.BearerTokenFile ≠ "" then
    match fsRead fs cfg.BearerTokenFile with
    | none => Except.error CortexError.ErrFailedToReadFile
    | some token => Except.ok (setHeader req "Authorization" ("Bearer " ++ token))
  else
    Except.ok req

/-- Modelled from the spec: the per-request authenticator
(`Exporter.addHeaders`, absent from the excerpt; only its tests are
present).  Per the spec it sets at most one `Authorization` header,
applying the basic-auth step and then the bearer-token step, and is a
pass-through when neither is configured.  An error result leaves the
request untouched. -/
def addHeaders (cfg : Config) (fs : FS) (req : Headers) : Except CortexError Headers :=
  match addBasicAuth cfg fs req with
  | Except.error e => Except.error e
  | Except.ok req1 => addBearerTokenAuth cfg fs req1

/-! ### Helper lemmas -/

theorem withDefaults_eq (c : Config) :
    withDefaults c = { c with
      Endpoint := if c.Endpoint = "" then "/api/prom/push" else c.Endpoint,
      RemoteTimeout := if c.RemoteTimeout = 0 then 30 * second else c.RemoteTimeout,
      PushInterval := if c.PushInterval = 0 then 10 * second else c.PushInterval } := by
  unfold withDefaults
  by_cases h1 : c.Endpoint = "" <;> by_cases h2 : c.RemoteTimeout = 0 <;>
    by_cases h3 : c.PushInterval = 0 <;> simp [h1, h2, h3]

theorem setClient_fst_frame (d : Config) :
    ((setClient d).1).Endpoint = d.Endpoint ∧
    ((setClient d).1).RemoteTimeout = d.RemoteTimeout ∧
    ((setClient d).1).PushInterval = d.PushInterval := by
  unfold setClient
  split
  · split <;> simp
  · split <;> simp

theorem setClient_snd (d : Config) :
    (setClient d).2 = none ∨ (setClient d).2 = some CortexError.ErrURLParse := by
  unfold setClient
  split
  · split <;> simp
  · split <;> simp

theorem validate_no_conflict (c : Config)
    (h1 : ¬(c.BearerToken ≠ "" ∧ c.BearerTokenFile ≠ ""))
    (h2 : ¬(mapGet c.BasicAuth "password" ≠ "" ∧ mapGet c.BasicAuth "password_file" ≠ "")) :
    Config.Validate c = setClient (withDefaults c) := by
  unfold Config.Validate
  rw [if_neg h1, if_neg h2]

theorem setClient_proxy (d : Config) (u : String) (hc : d.Client = none)
    (hp : d.ProxyURL ≠ "") (hu : urlParse d.ProxyURL = some u) :
    setClient d = ({ d with Client := some (HTTPClient.custom (proxyTransport u)) }, none) := by
  unfold setClient
  rw [if_pos ⟨hc, hp⟩, hu]

theorem setClient_noproxy (d : Config) (hc : d.Client = none) (hp : d.ProxyURL = "") :
    setClient d = ({ d with Client := some HTTPClient.defaultClient }, none) := by
  unfold setClient
  rw [if_neg (by simp [hp]), if_pos hc]

example : base64Encode (strBytes "u:p") = "dTpw" := by decide

example : base64Encode (strBytes "TestUser:TestPassword") = "VGVzdFVzZXI6VGVzdFBhc3N3b3Jk" := by decide

/-! ### Claim C1 -/

/-- C1 counterexample: the claim assigns `ErrTwoPasswords` to every config
with both password forms set, but on a config that also sets both
bearer-token forms, `Validate` returns `ErrTwoBearerTokens` because the
bearer-token check runs first. -/
theorem validate_both_conflicts_counterexample :
    (Config.Validate ({ BasicAuth := some [("username", "u"), ("password", "p"),
        ("password_file", "q")], BearerToken := "a", BearerTokenFile := "b" } : Config)).2 =
      some CortexError.ErrTwoBearerTokens ∧
    CortexError.ErrTwoBearerTokens ≠ CortexError.ErrTwoPasswords := by decide

/-- C1 (amended): `Validate` returns `ErrTwoBearerTokens` whenever both
bearer-token forms are set; it returns `ErrTwoPasswords` whenever both
password forms are set and the bearer-token forms are not both set (the
bearer-token check runs first); with neither conflict present it returns
neither duplicate-sources error. -/
theorem validate_duplicate_sources (c : Config) :
    (c.BearerToken ≠ "" ∧ c.BearerTokenFile ≠ "" →
      (Config.Validate c).2 = some CortexError.ErrTwoBearerTokens) ∧
    (¬(c.BearerToken ≠ "" ∧ c.BearerTokenFile ≠ "") →
      mapGet c.BasicAuth "password" ≠ "" → mapGet c.BasicAuth "password_file" ≠ "" →
      (Config.Validate c).2 = some CortexError.ErrTwoPasswords) ∧
    (¬(c.BearerToken ≠ "" ∧ c.BearerTokenFile ≠ "") →
      ¬(mapGet c.BasicAuth "password" ≠ "" ∧ mapGet c.BasicAuth "password_file" ≠ "") →
      (Config.Validate c).2 ≠ some CortexError.ErrTwoPasswords ∧
      (Config.Validate c).2 ≠ some CortexError.ErrTwoBearerTokens) := by
  refine ⟨fun h1 => ?_, fun h1 hp hpf => ?_, fun h1 h2 => ?_⟩
  · unfold Config.Validate
    rw [if_pos h1]
  · unfold Config.Validate
    rw [if_neg h1, if_pos ⟨hp, hpf⟩]
  · rw [validate_no_conflict c h1 h2]
    rcases setClient_snd (withDefaults c) with h | h <;> rw [h] <;> exact ⟨by simp, by simp⟩

/-- C1 witness: a config with only the password conflict is rejected with
`ErrTwoPasswords`. -/
theorem validate_duplicate_sources_witness :
    (Config.Validate ({ BasicAuth := some [("password", "p"), ("password_file", "q")] } :
      Config)).2 = some CortexError.ErrTwoPasswords :=
  (validate_duplicate_sources
    ({ BasicAuth := some [("password", "p"), ("password_file", "q")] } : Config)).2.1
    (by decide) (by decide) (by decide)

/-! ### Claim C3 -/

/-- C3: on a config that `Validate` accepts, `Endpoint` ends up as
`/api/prom/push` exactly when it was empty, `RemoteTimeout` as 30s exactly
when it was zero, and `PushInterval` as 10s exactly when it was zero;
fields already set keep their values. -/
theorem validate_defaults (c cv : Config) (h : Config.Validate c = (cv, none)) :
    cv.Endpoint = (if c.Endpoint = "" then "/api/prom/push" else c.Endpoint) ∧
    cv.RemoteTimeout = (if c.RemoteTimeout = 0 then 30 * second else c.RemoteTimeout) ∧
    cv.PushInterval = (if c.PushInterval = 0 then 10 * second else c.PushInterval) := by
  by_cases h1 : (c.BearerToken ≠ "" ∧ c.BearerTokenFile ≠ "")
  · unfold Config.Validate at h
    rw [if_pos h1] at h
    exact absurd (congrArg Prod.snd h) (by simp)
  by_cases h2 : (mapGet c.BasicAuth "password" ≠ "" ∧ mapGet c.BasicAuth "password_file" ≠ "")
  · unfold Config.Validate at h
    rw [if_neg h1, if_pos h2] at h
    exact absurd (congrArg Prod.snd h) (by simp)
  rw [validate_no_conflict c h1 h2] at h
  have hcv : cv = (setClient (withDefaults c)).1 := by rw [h]
  obtain ⟨e1, e2, e3⟩ := setClient_fst_frame (withDefaults c)
  rw [hcv, e1, e2, e3, withDefaults_eq]
  exact ⟨rfl, rfl, rfl⟩

/-- C3 witness: validating the zero config fills in all three defaults. -/
theorem validate_defaults_witness :
    (Config.Validate ({} : Config)).1.Endpoint =
      (if ({} : Config).Endpoint = "" then "/api/prom/push" else ({} : Config).Endpoint) ∧
    (Config.Validate ({} : Config)).1.RemoteTimeout =
      (if ({} : Config).RemoteTimeout = 0 then 30 * second else ({} : Config).RemoteTimeout) ∧
    (Config.Validate ({} : Config)).1.PushInterval =
      (if ({} : Config).PushInterval = 0 then 10 * second else ({} : Config).PushInterval) :=
  validate_defaults ({} : Config) (Config.Validate ({} : Config)).1 (by decide)

/-! ### Claim C7 -/

/-- C7: on a config with no preset client that `Validate` accepts, a
non-empty proxy URL that parses yields a client over the custom transport
that routes through the proxy with 30s dial timeout and keep-alive,
100 max idle connections, 90s idle timeout, 10s TLS handshake timeout and
1s expect-continue timeout; with no proxy URL, the default client is used. -/
theorem validate_proxy_client (c cv : Config) (u : String)
    (h : Config.Validate c = (cv, none)) (hcl : c.Client = none) :
    (c.ProxyURL ≠ "" → urlParse c.ProxyURL = some u →
      cv.Client = some (HTTPClient.custom
        { Proxy := u, DialTimeout := 30 * second, DialKeepAlive := 30 * second,
          DualStack := true, ForceAttemptHTTP2 := true, MaxIdleConns := 100,
          IdleConnTimeout := 90 * second, TLSHandshakeTimeout := 10 * second,
          ExpectContinueTimeout := 1 * second })) ∧
    (c.ProxyURL = "" → cv.Client = some HTTPClient.defaultClient) := by
  by_cases h1 : (c.BearerToken ≠ "" ∧ c.BearerTokenFile ≠ "")
  · unfold Config.Validate at h
    rw [if_pos h1] at h
    exact absurd (congrArg Prod.snd h) (by simp)
  by_cases h2 : (mapGet c.BasicAuth "password" ≠ "" ∧ mapGet c.BasicAuth "password_file" ≠ "")
  · unfold Config.Validate at h
    rw [if_neg h1, if_pos h2] at h
    exact absurd (congrArg Prod.snd h) (by simp)
  rw [validate_no_conflict c h1 h2] at h
  have hdc : (withDefaults c).Client = c.Client := by rw [withDefaults_eq]
  have hdp : (withDefaults c).ProxyURL = c.ProxyURL := by rw [withDefaults_eq]
  constructor
  · intro hp hu
    rw [setClient_proxy (withDefaults c) u (by rw [hdc]; exact hcl)
      (by rw [hdp]; exact hp) (by rw [hdp]; exact hu)] at h
    injection h with hfst hsnd
    rw [← hfst]
    simp [proxyTransport]
  · intro hp
    rw [setClient_noproxy (withDefaults c) (by rw [hdc]; exact hcl)
      (by rw [hdp]; exact hp)] at h
    injection h with hfst hsnd
    rw [← hfst]

/-- C7 witness: a config whose only set field is a proxy URL gets the
proxy transport. -/
theorem validate_proxy_client_witness :
    (Config.Validate ({ ProxyURL := "http://proxy.test:3128" } : Config)).1.Client =
      some (HTTPClient.custom
        { Proxy := "http://proxy.test:3128", DialTimeout := 30 * second,
          DialKeepAlive := 30 * second, DualStack := true, ForceAttemptHTTP2 := true,
          MaxIdleConns := 100, IdleConnTimeout := 90 * second,
          TLSHandshakeTimeout := 10 * second, ExpectContinueTimeout := 1 * second }) :=
  (validate_proxy_client ({ ProxyURL := "http://proxy.test:3128" } : Config)
    (Config.Validate ({ ProxyURL := "http://proxy.test:3128" } : Config)).1
    "http://proxy.test:3128" (by decide) (by decide)).1 (by decide) (by decide)

/-! ### Claim C10 -/

/-- C10: when `Validate` rejects a config with `ErrTwoPasswords` or
`ErrTwoBearerTokens`, the config is returned exactly as given: no default
is filled in and no client is set. -/
theorem validate_error_frame (c cv : Config) (e : CortexError)
    (h : Config.Validate c = (cv, some e))
    (he : e = CortexError.ErrTwoPasswords ∨ e = CortexError.ErrTwoBearerTokens) :
    cv = c := by
  by_cases h1 : (c.BearerToken ≠ "" ∧ c.BearerTokenFile ≠ "")
  · unfold Config.Validate at h
    rw [if_pos h1] at h
    injection h with hfst hsnd
    exact hfst.symm
  by_cases h2 : (mapGet c.BasicAuth "password" ≠ "" ∧ mapGet c.BasicAuth "password_file" ≠ "")
  · unfold Config.Validate at h
    rw [if_neg h1, if_pos h2] at h
    injection h with hfst hsnd
    exact hfst.symm
  rw [validate_no_conflict c h1 h2] at h
  have hsnd := congrArg Prod.snd h
  rcases setClient_snd (withDefaults c) with hs | hs <;> rw [hs] at hsnd
  · exact absurd hsnd.symm (by simp)
  · rcases he with he | he <;> rw [he] at hsnd <;> exact absurd hsnd (by simp)

/-- C10 witness: a two-passwords config is returned unchanged. -/
theorem validate_error_frame_witness :
    ({ BasicAuth := some [("password", "p"), ("password_file", "q")],
       Endpoint := "e", RemoteTimeout := 5, PushInterval := 7 } : Config) =
    ({ BasicAuth := some [("password", "p"), ("password_file", "q")],
       Endpoint := "e", RemoteTimeout := 5, PushInterval := 7 } : Config) :=
  validate_error_frame
    ({ BasicAuth := some [("password", "p"), ("password_file", "q")],
       Endpoint := "e", RemoteTimeout := 5, PushInterval := 7 } : Config)
    ({ BasicAuth := some [("password", "p"), ("password_file", "q")],
       Endpoint := "e", RemoteTimeout := 5, PushInterval := 7 } : Config)
    CortexError.ErrTwoPasswords (by decide) (Or.inl rfl)

/-! ### Authenticator helper lemmas -/

theorem countHeader_setHeader (h : Headers) (k v : String) :
    countHeader (setHeader h k v) k = 1 := by
  unfold countHeader setHeader
  induction h with
  | nil => simp
  | cons a t ih =>
    by_cases hk : a.1 = k
    · simp [hk]
    · simp [hk]

theorem addBearerTokenAuth_skip (cfg : Config) (fs : FS) (req : Headers)
    (hb1 : cfg.BearerToken = "") (hb2 : cfg.BearerTokenFile = "") :
    addBearerTokenAuth cfg fs req = Except.ok req := by
  unfold addBearerTokenAuth
  rw [if_neg (by simp [hb1]), if_neg (by simp [hb2])]

theorem addBasicAuth_none (cfg : Config) (fs : FS) (req : Headers)
    (hba : cfg.BasicAuth = none) : addBasicAuth cfg fs req = Except.ok req := by
  unfold addBasicAuth
  rw [hba]

theorem addBasicAuth_ok_cases (cfg : Config) (fs : FS) (req res : Headers)
    (h : addBasicAuth cfg fs req = Except.ok res) :
    res = req ∨ ∃ v, res = setHeader req "Authorization" v := by
  unfold addBasicAuth at h
  split at h
  · exact Or.inl (Except.ok.inj h).symm
  · split at h
    · exact absurd h (by simp)
    split at h
    · exact absurd h (by simp)
    split at h
    · exact Or.inr ⟨_, (Except.ok.inj h).symm⟩
    split at h
    · exact absurd h (by simp)
    · exact Or.inr ⟨_, (Except.ok.inj h).symm⟩

theorem addBearerTokenAuth_ok_cases (cfg : Config) (fs : FS) (req res : Headers)
    (h : addBearerTokenAuth cfg fs req = Except.ok res) :
    res = req ∨ ∃ v, res = setHeader req "Authorization" v := by
  unfold addBearerTokenAuth at h
  split at h
  · exact Or.inr ⟨_, (Except.ok.inj h).symm⟩
  split at h
  · split at h
    · exact absurd h (by simp)
    · exact Or.inr ⟨_, (Except.ok.inj h).symm⟩
  · exact Or.inl (Except.ok.inj h).symm

/-! ### Claim C2 -/

/-- C2: with basic auth configured, a non-empty username, and a password
supplied directly or through a readable password file, `addHeaders` sets
the `Authorization` header to `Basic` followed by the standard base64
encoding of `username:password` and succeeds.  (Stated for configs with no
bearer token, which would otherwise take over the header afterwards.) -/
theorem addHeaders_basic_auth_header (cfg : Config) (fs : FS) (req : Headers)
    (ba : List (String × String)) (p : String)
    (hba : cfg.BasicAuth = some ba)
    (hb1 : cfg.BearerToken = "") (hb2 : cfg.BearerTokenFile = "")
    (hu : mapGetSome ba "username" ≠ "")
    (hp : (mapGetSome ba "password" = p ∧ p ≠ "") ∨
      (mapGetSome ba "password" = "" ∧ mapGetSome ba "password_file" ≠ "" ∧
        fsRead fs (mapGetSome ba "password_file") = some p)) :
    addHeaders cfg fs req = Except.ok (setHeader req "Authorization"
      ("Basic " ++ base64Encode (strBytes (mapGetSome ba "username" ++ ":" ++ p)))) := by
  have hbasic : addBasicAuth cfg fs req = Except.ok (setHeader req "Authorization"
      ("Basic " ++ base64Encode (strBytes (mapGetSome ba "username" ++ ":" ++ p)))) := by
    simp only [addBasicAuth, hba]
    rcases hp with ⟨hp1, hp2⟩ | ⟨hp1, hp2, hp3⟩
    · rw [if_neg hu, if_neg (by simp [hp1, hp2]), if_pos (by rw [hp1]; exact hp2), hp1]
    · rw [if_neg hu, if_neg (by simp [hp2]), if_neg (by simp [hp1]), hp3]
  unfold addHeaders
  rw [hbasic]
  exact addBearerTokenAuth_skip cfg fs _ hb1 hb2

/-- C2 witness: the username/password pair of the test suite yields the
expected `Basic` header. -/
theorem addHeaders_basic_auth_header_witness :
    addHeaders ({ BasicAuth := some [("username", "TestUser"), ("password", "TestPassword")] } :
      Config) [] [] = Except.ok (setHeader [] "Authorization"
      ("Basic " ++ base64Encode (strBytes (mapGetSome
        [("username", "TestUser"), ("password", "TestPassword")] "username"
        ++ ":" ++ "TestPassword")))) :=
  addHeaders_basic_auth_header
    ({ BasicAuth := some [("username", "TestUser"), ("password", "TestPassword")] } : Config)
    [] [] [("username", "TestUser"), ("password", "TestPassword")] "TestPassword"
    rfl rfl rfl (by decide) (Or.inl ⟨by decide, by decide⟩)

/-! ### Claim C9 -/

/-- C9: with basic auth configured, an empty username yields
`ErrNoBasicAuthUsername`, and a non-empty username with neither a password
nor a password file yields `ErrNoBasicAuthPassword`; in the embedding an
error result carries no request, so no header is set. -/
theorem addHeaders_basic_auth_errors (cfg : Config) (fs : FS) (req : Headers)
    (ba : List (String × String)) (hba : cfg.BasicAuth = some ba) :
    (mapGetSome ba "username" = "" →
      addHeaders cfg fs req = Except.error CortexError.ErrNoBasicAuthUsername) ∧
    (mapGetSome ba "username" ≠ "" → mapGetSome ba "password" = "" →
      mapGetSome ba "password_file" = "" →
      addHeaders cfg fs req = Except.error CortexError.ErrNoBasicAuthPassword) := by
  constructor
  · intro hu
    have hb : addBasicAuth cfg fs req = Except.error CortexError.ErrNoBasicAuthUsername := by
      simp only [addBasicAuth, hba]
      rw [if_pos hu]
    unfold addHeaders
    rw [hb]
  · intro hu hp hpf
    have hb : addBasicAuth cfg fs req = Except.error CortexError.ErrNoBasicAuthPassword := by
      simp only [addBasicAuth, hba]
      rw [if_neg hu, if_pos ⟨hp, hpf⟩]
    unfold addHeaders
    rw [hb]

/-- C9 witness: a basic-auth map with only a password is rejected for the
missing username. -/
theorem addHeaders_basic_auth_errors_witness :
    addHeaders ({ BasicAuth := some [("password", "TestPassword")] } : Config) [] [] =
      Except.error CortexError.ErrNoBasicAuthUsername :=
  (addHeaders_basic_auth_errors ({ BasicAuth := some [("password", "TestPassword")] } : Config)
    [] [] [("password", "TestPassword")] rfl).1 (by decide)

/-! ### Claim C8 -/

/-- C8: with no basic auth and a bearer token supplied directly or through
a readable token file, `addHeaders` sets the `Authorization` header to
`Bearer <token>` and succeeds. -/
theorem addHeaders_bearer_header (cfg : Config) (fs : FS) (req : Headers) (t : String)
    (hba : cfg.BasicAuth = none)
    (ht : (cfg.BearerToken = t ∧ t ≠ "") ∨
      (cfg.BearerToken = "" ∧ cfg.BearerTokenFile ≠ "" ∧
        fsRead fs cfg.BearerTokenFile = some t)) :
    addHeaders cfg fs req = Except.ok (setHeader req "Authorization" ("Bearer " ++ t)) := by
  unfold addHeaders
  rw [addBasicAuth_none cfg fs req hba]
  show addBearerTokenAuth cfg fs req =
    Except.ok (setHeader req "Authorization" ("Bearer " ++ t))
  unfold addBearerTokenAuth
  rcases ht with ⟨ht1, ht2⟩ | ⟨ht1, ht2, ht3⟩
  · rw [if_pos (by rw [ht1]; exact ht2), ht1]
  · rw [if_neg (by simp [ht1]), if_pos ht2, ht3]

/-- C8 witness: the direct bearer token of the test suite yields the
expected `Bearer` header. -/
theorem addHeaders_bearer_header_witness :
    addHeaders ({ BearerToken := "testToken" } : Config) [] [] =
      Except.ok (setHeader [] "Authorization" ("Bearer " ++ "testToken")) :=
  addHeaders_bearer_header ({ BearerToken := "testToken" } : Config) [] [] "testToken"
    rfl (Or.inl ⟨rfl, by decide⟩)

/-! ### Claim C5 -/

/-- C5: a credential file that cannot be read yields `ErrFailedToReadFile`
in both auth modes: for basic auth with a non-empty username, no direct
password and a password file that is absent from the filesystem, and for a
bearer token file that is absent from the filesystem; an error result
carries no request, so no header is set. -/
theorem addHeaders_unreadable_file (cfg : Config) (fs : FS) (req : Headers) :
    (∀ ba, cfg.BasicAuth = some ba → mapGetSome ba "username" ≠ "" →
      mapGetSome ba "password" = "" → mapGetSome ba "password_file" ≠ "" →
      fsRead fs (mapGetSome ba "password_file") = none →
      addHeaders cfg fs req = Except.error CortexError.ErrFailedToReadFile) ∧
    (cfg.BasicAuth = none → cfg.BearerToken = "" → cfg.BearerTokenFile ≠ "" →
      fsRead fs cfg.BearerTokenFile = none →
      addHeaders cfg fs req = Except.error CortexError.ErrFailedToReadFile) := by
  constructor
  · intro ba hba hu hp hpf hread
    have hb : addBasicAuth cfg fs req = Except.error CortexError.ErrFailedToReadFile := by
      simp only [addBasicAuth, hba]
      rw [if_neg hu, if_neg (by simp [hpf]), if_neg (by simp [hp]), hread]
    unfold addHeaders
    rw [hb]
  · intro hba hb1 hbf hread
    unfold addHeaders
    rw [addBasicAuth_none cfg fs req hba]
    show addBearerTokenAuth cfg fs req = Except.error CortexError.ErrFailedToReadFile
    unfold addBearerTokenAuth
    rw [if_neg (by simp [hb1]), if_pos hbf, hread]

/-- C5 witness: the missing password file of the test suite yields the
unreadable-file error. -/
theorem addHeaders_unreadable_file_witness :
    addHeaders ({ BasicAuth := some [("username", "TestUser"),
        ("password_file", "missingPasswordFile")] } : Config) [] [] =
      Except.error CortexError.ErrFailedToReadFile :=
  (addHeaders_unreadable_file ({ BasicAuth := some [("username", "TestUser"),
      ("password_file", "missingPasswordFile")] } : Config) [] []).1
    [("username", "TestUser"), ("password_file", "missingPasswordFile")] rfl
    (by decide) (by decide) (by decide) rfl

/-! ### Claim C6 -/

/-- C6: starting from a request without an `Authorization` entry, any
successful `addHeaders` result carries at most one `Authorization` entry,
and with neither basic auth nor a bearer token configured the request is
returned unchanged, so no `Authorization` entry appears. -/
theorem addHeaders_sets_at_most_one (cfg : Config) (fs : FS) (req res : Headers)
    (h0 : countHeader req "Authorization" = 0) :
    (addHeaders cfg fs req = Except.ok res → countHeader res "Authorization" ≤ 1) ∧
    (cfg.BasicAuth = none → cfg.BearerToken = "" → cfg.BearerTokenFile = "" →
      addHeaders cfg fs req = Except.ok req) := by
  constructor
  · intro h
    unfold addHeaders at h
    cases hb : addBasicAuth cfg fs req with
    | error e =>
      rw [hb] at h
      exact absurd h (by simp)
    | ok req1 =>
      rw [hb] at h
      have h2 : addBearerTokenAuth cfg fs req1 = Except.ok res := h
      rcases addBearerTokenAuth_ok_cases cfg fs req1 res h2 with rfl | ⟨v, rfl⟩
      · rcases addBasicAuth_ok_cases cfg fs req res hb with rfl | ⟨w, rfl⟩
        · rw [h0]
          exact Nat.zero_le 1
        · rw [countHeader_setHeader]
      · rw [countHeader_setHeader]
  · intro hba hb1 hb2
    unfold addHeaders
    rw [addBasicAuth_none cfg fs req hba]
    show addBearerTokenAuth cfg fs req = Except.ok req
    exact addBearerTokenAuth_skip cfg fs req hb1 hb2

/-- C6 witness: the empty config leaves the empty request untouched. -/
theorem addHeaders_sets_at_most_one_witness :
    addHeaders ({} : Config) [] [] = Except.ok [] :=
  (addHeaders_sets_at_most_one ({} : Config) [] [] [] (by decide)).2 rfl rfl rfl

/-! ### Claim C4 -/

/-- C4 counterexample: the claim says the per-request authenticator
performs no file reads, but the result of `addHeaders` on a password-file
config differs between a filesystem that holds the file and one that does
not, so the authenticator reads the file on the request path. -/
theorem addHeaders_no_file_reads_counterexample :
    addHeaders ({ BasicAuth := some [("username", "TestUser"),
        ("password_file", "passwordFile")] } : Config)
      [("passwordFile", "TestPassword")] [] ≠
    addHeaders ({ BasicAuth := some [("username", "TestUser"),
        ("password_file", "passwordFile")] } : Config) [] [] := by decide

/-- C4 (amended): file-based credentials are read during per-request
header decoration: on a password-file config, each `addHeaders` call is
decided by the filesystem at request time, failing when the file is
unreadable then and encoding the file contents read then otherwise; no
construction-time read or cache is involved. -/
theorem addHeaders_reads_per_request (cfg : Config) (fs : FS) (req : Headers)
    (ba : List (String × String)) (hba : cfg.BasicAuth = some ba)
    (hu : mapGetSome ba "username" ≠ "") (hp : mapGetSome ba "password" = "")
    (hpf : mapGetSome ba "password_file" ≠ "")
    (hb1 : cfg.BearerToken = "") (hb2 : cfg.BearerTokenFile = "") :
    (fsRead fs (mapGetSome ba "password_file") = none →
      addHeaders cfg fs req = Except.error CortexError.ErrFailedToReadFile) ∧
    (∀ pw, fsRead fs (mapGetSome ba "password_file") = some pw →
      addHeaders cfg fs req = Except.ok (setHeader req "Authorization"
        ("Basic " ++ base64Encode (strBytes (mapGetSome ba "username" ++ ":" ++ pw))))) := by
  constructor
  · intro hread
    have hb : addBasicAuth cfg fs req = Except.error CortexError.ErrFailedToReadFile := by
      simp only [addBasicAuth, hba]
      rw [if_neg hu, if_neg (by simp [hpf]), if_neg (by simp [hp]), hread]
    unfold addHeaders
    rw [hb]
  · intro pw hread
    have hb : addBasicAuth cfg fs req = Except.ok (setHeader req "Authorization"
        ("Basic " ++ base64Encode (strBytes (mapGetSome ba "username" ++ ":" ++ pw)))) := by
      simp only [addBasicAuth, hba]
      rw [if_neg hu, if_neg (by simp [hpf]), if_neg (by simp [hp]), hread]
    unfold addHeaders
    rw [hb]
    exact addBearerTokenAuth_skip cfg fs _ hb1 hb2

/-- C4 witness: with the password file present at request time, the header
is built from the file contents read on that request. -/
theorem addHeaders_reads_per_request_witness :
    addHeaders ({ BasicAuth := some [("username", "TestUser"),
        ("password_file", "passwordFile")] } : Config)
      [("passwordFile", "TestPassword")] [] =
      Except.ok (setHeader [] "Authorization" ("Basic " ++ base64Encode (strBytes
        (mapGetSome [("username", "TestUser"), ("password_file", "passwordFile")] "username"
          ++ ":" ++ "TestPassword")))) :=
  (addHeaders_reads_per_request ({ BasicAuth := some [("username", "TestUser"),
      ("password_file", "passwordFile")] } : Config)
    [("passwordFile", "TestPassword")] []
    [("username", "TestUser"), ("password_file", "passwordFile")]
    rfl (by decide) (by decide) (by decide) rfl rfl).2 "TestPassword" (by decide)

end Cortex
